import Mathlib

/-!
Shallow embedding of the `pagination` package (src/pagination.go).

Modelling choices:
* Go `int` is modelled as `Int`; every value the claims touch stays far from
  the 64-bit range, so overflow never matters here.
* Go's `/` and `%` on integers truncate toward zero, so they are embedded as
  `Int.tdiv` and `Int.tmod`.
* Go panics on integer division by zero; `setPages` (and hence `LoadData`)
  therefore returns an `Option`, with `none` for the panic.
* The `*gorm.DB` model is abstracted as a `DB`: the outcome of the count
  query, and a fetch function receiving the limit and offset that the code
  applies to the model before calling `Find`.
* Methods mutate the receiver in Go; they are embedded by explicit state
  passing.  `GetPage`/`GetOffset` both return a value and mutate the
  receiver, so they return a pair.
-/

abbrev GoError := String

structure Pagination (α : Type) where
  Executed : Bool := false
  Success : Bool := false
  Error : Option String := none
  Records : Int := 0
  CurrentPage : Int := 0
  Pages : Int := 0
  Size : Int := 0
  MaxSize : Int := 0
  First : Int := 0
  Last : Int := 0
  Data : Option (List α) := none
  deriving DecidableEq

/-- `func (p *Pagination) setCurrentPage(page int)` -/
def setCurrentPage {α : Type} (p : Pagination α) (page : Int) : Pagination α :=
  if page > 0 then { p with CurrentPage := page } else { p with CurrentPage := 1 }

/-- `func (p *Pagination) SetMaxSize(limit int)` -/
def SetMaxSize {α : Type} (p : Pagination α) (limit : Int) : Pagination α :=
  { p with MaxSize := limit }

/-- `func (p *Pagination) GetPage() int`: clamps `CurrentPage` below at 1
(mutating the receiver) and returns it. -/
def GetPage {α : Type} (p : Pagination α) : Int × Pagination α :=
  if p.CurrentPage < 1 then (1, { p with CurrentPage := 1 })
  else (p.CurrentPage, p)

/-- `func (p *Pagination) GetOffset() int`: `(p.GetPage() - 1) * p.Size`. -/
def GetOffset {α : Type} (p : Pagination α) : Int × Pagination α :=
  let r := GetPage p
  ((r.1 - 1) * r.2.Size, r.2)

/-- `func (p *Pagination) setLast()`: `p.Last = p.GetOffset() + p.Size`,
then capped at `p.Records`. -/
def setLast {α : Type} (p : Pagination α) : Pagination α :=
  let r := GetOffset p
  let q : Pagination α := { r.2 with Last := r.1 + r.2.Size }
  if q.Last > q.Records then { q with Last := q.Records } else q

/-- `func (p *Pagination) setPages()`.  `none` models the Go division-by-zero
panic of `p.Records % p.Size` when `p.Size == 0` (reached only when
`p.Records != 0`, since the zero-records branch returns early). -/
def setPages {α : Type} (p : Pagination α) : Option (Pagination α) :=
  if p.Records = 0 then some { p with Pages := 1 }
  else if p.Size = 0 then none
  else
    let res := Int.tmod p.Records p.Size
    let q :=
      if res = 0 then { p with Pages := Int.tdiv p.Records p.Size }
      else { p with Pages := Int.tdiv p.Records p.Size + 1 }
    let q2 := if q.Pages = 0 then { q with Pages := 1 } else q
    some (setLast q2)

/-- The abstract data source: the count query's outcome, and the fetch query
as a function of the limit and offset bound onto the model. -/
structure DB (α : Type) where
  count : Except GoError Int
  find : Int → Int → Except GoError (List α)

/-- `func (p *Pagination) LoadData(out interface{}) (*Pagination, error)`.
Returns the final receiver state together with the Go `error` return value;
`none` models the division-by-zero panic inside `setPages`. -/
def LoadData {α : Type} (db : DB α) (p : Pagination α) :
    Option (Pagination α × Option GoError) :=
  match db.count with
  | Except.error e => some (p, some e)
  | Except.ok total =>
    match setPages { p with Records := total } with
    | none => none
    | some p1 =>
      let r := GetOffset p1
      match db.find r.2.Size r.1 with
      | Except.error e =>
        some ({ r.2 with Error := some "unable to load data from the database" },
          some e)
      | Except.ok rows =>
        some ({ r.2 with Success := true, Data := some rows }, none)

/-- The state-building part of `func New(model, request, out ...)`: the local
`limit` is clamped (to at least 10, then against the zero-initialised
`MaxSize`, which sets `MaxSize = 50`) but — exactly as in the source — the
clamped `limit` is never assigned to any field of `p`; only `MaxSize` and
`CurrentPage` are written. -/
def newPagination {α : Type} (limitRaw pageRaw : Int) : Pagination α :=
  let p : Pagination α := {}
  let limit0 := limitRaw
  let limit1 := if limit0 < 10 then 10 else limit0
  let st :=
    if limit1 > p.MaxSize then
      let p2 := if p.MaxSize = 0 then { p with MaxSize := 50 } else p
      (p2, p2.MaxSize)
    else (p, limit1)
  let page := if pageRaw < 1 then 1 else pageRaw
  setCurrentPage st.1 page

/-- `func New(...)`: builds the pagination state and, when an `out` argument
is supplied, immediately runs `LoadData` on it. -/
def New {α : Type} (db : DB α) (limitRaw pageRaw : Int) (withOut : Bool) :
    Option (Pagination α × Option GoError) :=
  let p : Pagination α := newPagination limitRaw pageRaw
  if withOut then LoadData db p else some (p, none)

/-! Concrete data sources and states used in scenario theorems. -/

/-- A source with 25 matching rows whose fetch records the limit and offset it
was called with (as the two returned rows), so theorems can observe the bounds
the code actually passed to the query. -/
def db25 : DB Int :=
  { count := Except.ok 25, find := fun l o => Except.ok [l, o] }

/-- A source reporting zero matching rows and returning an empty page. -/
def db0 : DB Int :=
  { count := Except.ok 0, find := fun _ _ => Except.ok [] }

/-- A source with 7 matching rows. -/
def db7 : DB Int :=
  { count := Except.ok 7, find := fun _ _ => Except.ok [] }

/-- A state as the spec's scenario `records=25, size=10, requestedPage=99`
assumes it: size 10 and requested page 99 already bound. -/
def p99 : Pagination Int := { Size := 10, CurrentPage := 99 }

/-! Helper lemmas about the embedded operations. -/

/-- `New` writes exactly two fields of the fresh state: `MaxSize` becomes 50
(the zero-initialised `MaxSize` makes `limit > p.MaxSize` true for the
already-raised `limit ≥ 10`), and `CurrentPage` becomes the requested page
clamped below at 1.  In particular the clamped `limit` is dropped. -/
theorem newPagination_eq {α : Type} (lr pr : Int) :
    (newPagination lr pr : Pagination α) =
      { MaxSize := 50, CurrentPage := max pr 1 } := by
  unfold newPagination setCurrentPage
  simp only
  split_ifs with h1 h2 h3 h4 h5 h6 <;>
    simp_all [Pagination.mk.injEq] <;> omega

/-- After `GetPage` (hence after `GetOffset`) the stored current page is at
least 1. -/
theorem GetPage_snd_CurrentPage_pos {α : Type} (p : Pagination α) :
    1 ≤ (GetPage p).2.CurrentPage := by
  unfold GetPage
  split_ifs with h
  · exact le_refl 1
  · simpa using by omega

/-- `GetPage` leaves every field other than `CurrentPage` unchanged, and
`CurrentPage` becomes its clamped value. -/
theorem GetPage_snd_eq {α : Type} (p : Pagination α) :
    (GetPage p).2 = { p with CurrentPage := max p.CurrentPage 1 } := by
  unfold GetPage
  split_ifs with h <;> simp_all [Pagination.mk.injEq] <;> omega

/-- The value returned by `GetPage` is the clamped current page. -/
theorem GetPage_fst_eq {α : Type} (p : Pagination α) :
    (GetPage p).1 = max p.CurrentPage 1 := by
  unfold GetPage
  split_ifs with h <;> simp_all <;> omega

/-- `setLast` never touches `Pages`. -/
theorem setLast_Pages {α : Type} (p : Pagination α) :
    (setLast p).Pages = p.Pages := by
  unfold setLast GetOffset GetPage
  dsimp only
  split_ifs <;> rfl

/-- When the size is nonzero, `setPages` cannot hit the division-by-zero
branch; moreover it leaves `Success`, `Error`, `Data`, `First` and `Records`
unchanged. -/
theorem setPages_some {α : Type} (p : Pagination α) (hs : p.Size ≠ 0) :
    ∃ q, setPages p = some q ∧ q.Success = p.Success ∧ q.Error = p.Error ∧
      q.Data = p.Data ∧ q.First = p.First ∧ q.Size = p.Size := by
  unfold setPages setLast GetOffset GetPage
  dsimp only
  split_ifs <;> exact ⟨_, rfl, rfl, rfl, rfl, rfl, rfl⟩

/-- `GetOffset` leaves every field except `CurrentPage` unchanged. -/
theorem GetOffset_snd_preserve {α : Type} (p : Pagination α) :
    (GetOffset p).2.Success = p.Success ∧ (GetOffset p).2.Error = p.Error ∧
      (GetOffset p).2.Data = p.Data ∧ (GetOffset p).2.First = p.First := by
  unfold GetOffset GetPage
  split_ifs <;> exact ⟨rfl, rfl, rfl, rfl⟩

/-! Claim theorems. -/

/-- C1: the claim says the `Size` field of the `Pagination` built by `New`
always lies in `[10, effectiveMaxSize]`.  The code computes the clamped limit
into a local variable and never assigns it: at the failing input
`limit=25, page=1` the built state has `Size = 0`, outside `[10, 50]`. -/
theorem C1_size_left_zero :
    (newPagination 25 1 : Pagination Int).Size = 0 ∧
      ¬(10 ≤ (newPagination 25 1 : Pagination Int).Size) := by
  constructor <;> decide

/-- C10: every `Pagination` built by `New` has `MaxSize = 50`: the local limit
is first raised to at least 10, so `limit > p.MaxSize` holds against the
zero-initialised field and `MaxSize := 50` is assigned unconditionally. -/
theorem C10_maxSize_always_50 (lr pr : Int) :
    (newPagination lr pr : Pagination Int).MaxSize = 50 := by
  rw [newPagination_eq]

/-- C3: every `Pagination` built by `New` has `Size = 0` (the clamped local
limit is never stored), and consequently whenever the count query reports a
nonzero total, `LoadData` reaches `Records % Size` with `Size = 0`: the
division-by-zero branch of `setPages` (`none`, the Go panic) is reachable on
the public path. -/
theorem C3_size_zero_division_reachable (lr pr : Int) :
    (newPagination lr pr : Pagination Int).Size = 0 ∧
      ∀ (db : DB Int) (t : Int), db.count = Except.ok t → t ≠ 0 →
        LoadData db (newPagination lr pr) = none := by
  refine ⟨by rw [newPagination_eq], ?_⟩
  intro db t hc ht
  rw [newPagination_eq]
  unfold LoadData
  rw [hc]
  simp [setPages, ht]

/-- Witness for C3 at `limit=25, page=1` and a source counting 7 rows. -/
theorem C3_witness :
    db7.count = Except.ok 7 ∧ (7 : Int) ≠ 0 ∧
      LoadData db7 (newPagination 25 1) = none :=
  ⟨rfl, by decide, (C3_size_zero_division_reachable 25 1).2 db7 7 rfl (by decide)⟩

/-- C6: if the count query fails, `LoadData` returns the underlying error
verbatim and the state unchanged — in particular, for a `New`-built state,
`Success = false` and the embedded `Error` field is still unset — and the
result does not depend on the fetch function at all (no fetch is attempted). -/
theorem C6_count_error_verbatim (lr pr : Int) (e : GoError)
    (f : Int → Int → Except GoError (List Int)) :
    LoadData ⟨Except.error e, f⟩ (newPagination lr pr) =
      some (newPagination lr pr, some e) ∧
      (newPagination lr pr : Pagination Int).Success = false ∧
      (newPagination lr pr : Pagination Int).Error = none := by
  refine ⟨rfl, ?_, ?_⟩ <;> rw [newPagination_eq]

/-- C2, counterexample: at `records=25, size=10, requestedPage=99` the final
`CurrentPage` is 99, not 3 — the fetch was issued with limit 10 and offset
980 (recorded by `db25.find` in the data payload), not offset 20 — so the
requested page does not collapse to the last page and the claimed bound
`CurrentPage ≤ Pages = 3` fails. -/
theorem C2_counterexample :
    (LoadData db25 p99).map
        (fun r => (r.1.CurrentPage, r.1.Pages, r.1.Last, r.1.Data)) =
      some (99, 3, 25, some [10, 980]) ∧ ¬((99 : Int) ≤ 3) :=
  ⟨rfl, by decide⟩

/-- C2, amended: once the count succeeds, the final `CurrentPage` is only
clamped below at 1 — there is no upper clamp to `Pages`, so a page requested
beyond the last page is served as requested; in the scenario
`records=25, size=10, requestedPage=99` the final `CurrentPage` is 99, the
fetch runs with limit 10 and offset 980, and `last` is 25. -/
theorem C2_page_clamped_below_only :
    (∀ (db : DB Int) (p q : Pagination Int) (e : Option GoError) (t : Int),
        db.count = Except.ok t → LoadData db p = some (q, e) →
          1 ≤ q.CurrentPage) ∧
      (LoadData db25 p99).map (fun r => (r.1.CurrentPage, r.1.Last, r.1.Data)) =
        some (99, 25, some [10, 980]) := by
  refine ⟨?_, rfl⟩
  intro db p q e t hc hl
  unfold LoadData at hl
  rw [hc] at hl
  dsimp only at hl
  rcases hsp : setPages { p with Records := t } with _ | p1 <;>
    rw [hsp] at hl <;> dsimp only at hl
  · exact absurd hl (by simp)
  · rcases hf : db.find (GetOffset p1).2.Size (GetOffset p1).1 with e1 | rows <;>
      rw [hf] at hl <;>
      dsimp only at hl <;>
      rw [Option.some_inj, Prod.mk.injEq] at hl <;>
      rcases hl with ⟨hq, _⟩ <;>
      rw [← hq]
    · exact GetPage_snd_CurrentPage_pos p1
    · exact GetPage_snd_CurrentPage_pos p1

/-- Witness for C2's amended theorem at the scenario input. -/
theorem C2_witness :
    db25.count = Except.ok 25 ∧
      LoadData db25 p99 =
        some (((LoadData db25 p99).getD (p99, none)).1,
          ((LoadData db25 p99).getD (p99, none)).2) ∧
      1 ≤ ((LoadData db25 p99).getD (p99, none)).1.CurrentPage :=
  ⟨rfl, rfl,
    C2_page_clamped_below_only.1 db25 p99 ((LoadData db25 p99).getD (p99, none)).1
      ((LoadData db25 p99).getD (p99, none)).2 25 rfl rfl⟩

/-- C8, counterexample: with `records=0` and `requestedPage=3` the invocation
succeeds with `Pages=1`, `Last=0`, empty data — but the final `CurrentPage`
is 3, not 1: nothing clamps the current page down when the count is zero. -/
theorem C8_counterexample :
    (LoadData db0 (newPagination 20 3)).map
        (fun r => (r.1.CurrentPage, r.1.Pages, r.1.Last, r.1.Success, r.1.Data)) =
      some (3, 1, 0, true, some []) ∧ ¬((3 : Int) = 1) :=
  ⟨rfl, by decide⟩

/-- C8, amended: when the count query reports zero records the invocation
succeeds — `Pages = 1`, `Last = 0`, the data payload is the empty sequence
and `Success = true` — but `CurrentPage` keeps the requested page (clamped
below at 1) instead of collapsing to 1. -/
theorem C8_zero_records (lr pr : Int) :
    (LoadData db0 (newPagination lr pr)).map
        (fun r => (r.1.Pages, r.1.CurrentPage, r.1.Last, r.1.Success, r.1.Data, r.2)) =
      some (1, max pr 1, 0, true, some ([] : List Int), none) := by
  rw [newPagination_eq]
  unfold LoadData db0 setPages GetOffset GetPage
  dsimp only
  split_ifs with h1 h2 <;> simp_all <;> omega

/-- C9: the claim says every successful invocation ends with
`First = (CurrentPage - 1) * Size`.  The `First` field is never assigned
anywhere in the source: at the failing input (size 10, page 2, 25 records,
successful fetch) the invocation succeeds with `First = 0` while
`(CurrentPage - 1) * Size = 10`. -/
theorem C9_first_never_assigned :
    (LoadData { count := Except.ok 25, find := fun _ _ => Except.ok ([1, 2, 3] : List Int) }
        ({ Size := 10, CurrentPage := 2 } : Pagination Int)).map
        (fun r => (r.1.Success, r.1.First, (r.1.CurrentPage - 1) * r.1.Size)) =
      some (true, 0, 10) ∧ ¬((0 : Int) = 10) :=
  ⟨rfl, by decide⟩

/-- `GetOffset` mutates the state exactly as `GetPage` does. -/
theorem GetOffset_snd_eq {α : Type} (p : Pagination α) :
    (GetOffset p).2 = { p with CurrentPage := max p.CurrentPage 1 } :=
  GetPage_snd_eq p

/-- Euclidean form of the ceiling of `R / S` for positive `R` and `S`. -/
theorem tdiv_ceil_eq (R S : Int) (hR : 0 < R) (hS : 0 < S) :
    (R + S - 1) / S = if R % S = 0 then R / S else R / S + 1 := by
  have hkey : R % S + S * (R / S) = R := Int.emod_add_ediv R S
  have hmod0 : 0 ≤ R % S := Int.emod_nonneg R (by omega)
  have hmodlt : R % S < S := Int.emod_lt_of_pos R hS
  have hsplit : R + S - 1 = R % S + S - 1 + S * (R / S) := by linarith
  rw [hsplit, Int.add_mul_ediv_left _ _ (show S ≠ 0 by omega)]
  by_cases h : R % S = 0
  · rw [if_pos h, h]
    rw [show (0 : Int) + S - 1 = S - 1 by ring]
    rw [Int.ediv_eq_zero_of_lt (by omega) (by omega)]
    omega
  · rw [if_neg h]
    have h1 : 1 ≤ R % S := by omega
    rw [show R % S + S - 1 = R % S - 1 + S * 1 by ring]
    rw [Int.add_mul_ediv_left _ _ (show S ≠ 0 by omega)]
    rw [Int.ediv_eq_zero_of_lt (by omega) (by omega)]
    omega

/-- C4: for `Records ≥ 0` and `Size ≥ 1`, `setPages` succeeds and computes
`Pages = 1` when `Records = 0` and `Pages = ceil(Records / Size)` (here in
its euclidean form `(Records + Size - 1) / Size`) otherwise, and the result
is always at least 1. -/
theorem C4_setPages_ceil (p : Pagination Int) (hr : 0 ≤ p.Records)
    (hs : 1 ≤ p.Size) :
    ∃ q, setPages p = some q ∧
      q.Pages =
        (if p.Records = 0 then 1 else (p.Records + p.Size - 1) / p.Size) ∧
      1 ≤ q.Pages := by
  by_cases h0 : p.Records = 0
  · refine ⟨{ p with Pages := 1 }, ?_, ?_, le_refl 1⟩
    · unfold setPages
      rw [if_pos h0]
    · rw [if_pos h0]
  · have hrpos : 0 < p.Records := by omega
    have hspos : 0 < p.Size := by omega
    have hs0 : p.Size ≠ 0 := by omega
    have htm : Int.tmod p.Records p.Size = p.Records % p.Size :=
      Int.tmod_eq_emod hr (by omega)
    have htd : Int.tdiv p.Records p.Size = p.Records / p.Size :=
      Int.tdiv_eq_ediv hr (by omega)
    have hdiv0 : 0 ≤ p.Records / p.Size := Int.ediv_nonneg hr (by omega)
    have hceil := tdiv_ceil_eq p.Records p.Size hrpos hspos
    by_cases hm : p.Records % p.Size = 0
    · have hq1 : 1 ≤ p.Records / p.Size := by
        rcases eq_or_lt_of_le hdiv0 with heq | hlt
        · exfalso
          have h4 := Int.emod_add_ediv p.Records p.Size
          rw [hm, ← heq] at h4
          simp at h4
          omega
        · omega
      refine ⟨setLast { p with Pages := p.Records / p.Size }, ?_, ?_, ?_⟩
      · unfold setPages
        rw [if_neg h0, if_neg hs0]
        dsimp only
        rw [htm, htd, if_pos hm,
          if_neg (show ¬(({ p with Pages := p.Records / p.Size } :
            Pagination Int).Pages = 0) from by
              show ¬(p.Records / p.Size = 0); omega)]
      · rw [setLast_Pages]
        show p.Records / p.Size = _
        rw [if_neg h0, hceil, if_pos hm]
      · rw [setLast_Pages]
        exact hq1
    · refine ⟨setLast { p with Pages := p.Records / p.Size + 1 }, ?_, ?_, ?_⟩
      · unfold setPages
        rw [if_neg h0, if_neg hs0]
        dsimp only
        rw [htm, htd, if_neg hm,
          if_neg (show ¬(({ p with Pages := p.Records / p.Size + 1 } :
            Pagination Int).Pages = 0) from by
              show ¬(p.Records / p.Size + 1 = 0); omega)]
      · rw [setLast_Pages]
        show p.Records / p.Size + 1 = _
        rw [if_neg h0, hceil, if_neg hm]
      · rw [setLast_Pages]
        show 1 ≤ p.Records / p.Size + 1
        omega

/-- Witness for C4 at `Records = 25, Size = 10` (pages `= 3`). -/
theorem C4_witness :
    0 ≤ ({ Records := 25, Size := 10 } : Pagination Int).Records ∧
      1 ≤ ({ Records := 25, Size := 10 } : Pagination Int).Size ∧
      ∃ q, setPages ({ Records := 25, Size := 10 } : Pagination Int) = some q ∧
        q.Pages =
          (if ({ Records := 25, Size := 10 } : Pagination Int).Records = 0 then 1
            else (({ Records := 25, Size := 10 } : Pagination Int).Records +
                ({ Records := 25, Size := 10 } : Pagination Int).Size - 1) /
              ({ Records := 25, Size := 10 } : Pagination Int).Size) ∧
        1 ≤ q.Pages :=
  ⟨by decide, by decide, C4_setPages_ceil _ (by decide) (by decide)⟩

/-- C5: for any state with a nonnegative size, the computed offset is
`(CurrentPage - 1) * Size` after `CurrentPage` is clamped below at 1 (hence
the offset is nonnegative), and `setLast` stores
`min (offset + Size) Records` into `Last`. -/
theorem C5_offset_and_last (p : Pagination Int) (hs : 0 ≤ p.Size) :
    (GetOffset p).1 = (max p.CurrentPage 1 - 1) * p.Size ∧
      0 ≤ (GetOffset p).1 ∧
      (setLast p).Last =
        min ((max p.CurrentPage 1 - 1) * p.Size + p.Size) p.Records := by
  have h1 : (GetOffset p).1 = (max p.CurrentPage 1 - 1) * p.Size := by
    unfold GetOffset
    dsimp only
    rw [GetPage_fst_eq, GetPage_snd_eq]
  refine ⟨h1, ?_, ?_⟩
  · rw [h1]
    apply mul_nonneg _ hs
    omega
  · unfold setLast
    dsimp only
    rw [h1, GetOffset_snd_eq]
    dsimp only
    generalize (max p.CurrentPage 1 - 1) * p.Size = X
    split_ifs with h <;> dsimp only <;> omega

/-- Witness for C5 at the `size=10, requestedPage=99` state. -/
theorem C5_witness :
    0 ≤ p99.Size ∧
      ((GetOffset p99).1 = (max p99.CurrentPage 1 - 1) * p99.Size ∧
        0 ≤ (GetOffset p99).1 ∧
        (setLast p99).Last =
          min ((max p99.CurrentPage 1 - 1) * p99.Size + p99.Size) p99.Records) :=
  ⟨by decide, C5_offset_and_last p99 (by decide)⟩

/-- C7: if the count succeeds but the fetch fails, `LoadData` returns the
specific underlying error as the function-level error while the result has
`Success = false` and its embedded `Error` field set to the fixed generic
"unable to load data from the database" message — the storage-layer cause is
not embedded in the result. -/
theorem C7_fetch_error_dual (p : Pagination Int) (t : Int) (e : GoError)
    (hs : p.Size ≠ 0) (hsucc : p.Success = false) :
    ∃ q, LoadData ⟨Except.ok t, fun _ _ => Except.error e⟩ p =
        some (q, some e) ∧
      q.Error = some "unable to load data from the database" ∧
      q.Success = false := by
  obtain ⟨p1, hsp, hS, hE, hD, hF, hSz⟩ := setPages_some { p with Records := t } hs
  refine ⟨{ (GetOffset p1).2 with
      Error := some "unable to load data from the database" }, ?_, rfl, ?_⟩
  · unfold LoadData
    dsimp only
    rw [hsp]
  · show (GetOffset p1).2.Success = false
    rw [(GetOffset_snd_preserve p1).1, hS]
    exact hsucc

/-- Witness for C7 at size 10, 25 records, fetch failing with a specific
storage error. -/
theorem C7_witness :
    ({ Size := 10 } : Pagination Int).Size ≠ 0 ∧
      ({ Size := 10 } : Pagination Int).Success = false ∧
      ∃ q, LoadData ⟨Except.ok 25, fun _ _ => Except.error "disk failure"⟩
          ({ Size := 10 } : Pagination Int) = some (q, some "disk failure") ∧
        q.Error = some "unable to load data from the database" ∧
        q.Success = false :=
  ⟨by decide, rfl, C7_fetch_error_dual _ 25 "disk failure" (by decide) rfl⟩
